import Mathlib

/-!
Shallow embedding of `Project_Alarmclock.ino` (an Arduino alarm-clock
firmware): the display-multiplexing interrupt routine `iProcess`, the
foreground `loop` state machine (time / menu / setTime / setAlarm /
playingMelody), and the melody-timing arithmetic.

C `int` values are modelled as `Int` with `Int.tdiv` / `Int.tmod` for C's
truncating division; `millis()` timestamps are modelled as `Nat` (the
unsigned 32-bit wraparound is outside the window sizes the properties
concern).  `millis()` is sampled once per foreground iteration (`ms`): the
sub-millisecond drift between consecutive `millis()` calls inside one
iteration is not modelled.
-/

namespace Alarmclock

/-- Segment patterns for characters, indexed from ASCII 48 ('0');
source array `symbol[43]`. -/
def symbol : List Nat :=
  [0xFC, 0x60, 0xDA, 0xF2, 0x66, 0xB6, 0xBE, 0xE0, 0xFE, 0xF6,
   0x00, 0x00, 0x02, 0x12, 0x02, 0x00, 0x00,
   0xEE, 0x3E, 0x9C, 0x7A, 0x9E, 0x8E, 0xF6, 0x2E,
   0x60, 0x70, 0x02, 0x1C, 0x02, 0xEC, 0xFC, 0xCE,
   0xE6, 0x8C, 0xB6, 0x1E, 0x38, 0x7C, 0x02, 0x6E,
   0x66, 0xDA]

/-- Digit-select bit for each of the four digits (source `digitCode[4]`). -/
def digitCode : List Nat := [0x08, 0x04, 0x02, 0x01]

/-- Colon bit in shift register #1 (source `colonCode`). -/
def colonCode : Nat := 0x40

/-- LED 3 bit in shift register #1 (source `led3Code`). -/
def led3Code : Nat := 0x20

/-- Menu labels (source `menuText`; the array is declared with 6 slots but
only 5 initializers, the 6th is the default-constructed empty string). -/
def menuText : List String := ["CNDY", "PAPA", "TIJD", "ALAR", "AL>?"]

/-- Number of menu options (source `menuItemCount`). -/
def menuItemCount : Int := 5

/-- Inactivity window in milliseconds before falling back to the time view
(source `menuDelay`). -/
def menuDelay : Nat := 9000

/-- Maximum melody play duration in milliseconds (source `maxPlayDuration`). -/
def maxPlayDuration : Nat := 60000

/-- `getSymbol(char)` from the source: segment pattern of a character. -/
def getSymbol (c : Char) : Nat := symbol.getD (c.toNat - 48) 0

/-- The five UI states of `displayStatus`. -/
inductive displayStatus where
  | time | menu | setTime | setAlarm | playingMelody
deriving Repr, DecidableEq

/-- Which of the three melody arrays the `melody` pointer designates. -/
inductive MelodySel where
  | mel1 | mel2 | mel3
deriving Repr, DecidableEq

/-- Modelled from the spec: the contents of `melody.h`, which is included by
the sketch but is not among the source files.  It provides the three
MelodyTracks — ordered (pitch, duration-code) int arrays terminated by a
sentinel `END` — and their tempos.  The arrays are modelled as total
functions `Nat → Int` (C pointer indexing). -/
structure MelodyLib where
  melody1 : Nat → Int
  melody2 : Nat → Int
  melody3 : Nat → Int
  tempo1 : Int
  tempo2 : Int
  tempo3 : Int
  END : Int

/-- Resolve the `melody` pointer to the designated array; `none` models the
startup null pointer, which the firmware never dereferences (playingMelody
is only entered after assigning `melody`); it is given an arbitrary total
value here. -/
def melodyOf (lib : MelodyLib) : Option MelodySel → Nat → Int
  | some .mel1 => lib.melody1
  | some .mel2 => lib.melody2
  | some .mel3 => lib.melody3
  | none => fun _ => 0

/-- Global state mutated by the foreground `loop`. -/
structure ClockState where
  intensity : Int
  colonOn : Bool
  led3On : Bool
  currentDisplayStatus : displayStatus
  activeMenuOption : Int
  menuStartMillis : Nat
  blinkMillis : Nat
  digitValue : List Nat
  alarmHour : Int
  alarmMinute : Int
  alarmActive : Bool
  encoderPos : Int
  melody : Option MelodySel
  tempo : Int
  wholenote : Int
  currentNote : Nat
  noteDuration : Int
  noteMillis : Nat
  soundMillis : Nat
deriving Repr, DecidableEq

/-- The global initializers (source lines 99-137; uninitialized globals are
zero-initialized in C++, and the `melody` pointer starts null). -/
def initialState : ClockState where
  intensity := 1
  colonOn := false
  led3On := false
  currentDisplayStatus := .time
  activeMenuOption := 0
  menuStartMillis := 0
  blinkMillis := 0
  digitValue := [0, 0, 0, 0]
  alarmHour := 7
  alarmMinute := 0
  alarmActive := false
  encoderPos := 0
  melody := none
  tempo := 0
  wholenote := 0
  currentNote := 0
  noteDuration := 0
  noteMillis := 0
  soundMillis := 0

/-- The RTC snapshot `now` read once per loop iteration. -/
structure DateTime where
  hour : Nat
  minute : Nat
  second : Nat
deriving Repr, DecidableEq

/-- Externally observable side effects of one loop iteration: a pending
`RTC.adjust` delta in seconds, a `tone(pin, freq, dur)` command
(frequency, duration in ms), and whether `noTone` was called. -/
structure LoopEffects where
  rtcAdjust : Option Int
  toneCmd : Option (Int × Int)
  noToneCalled : Bool
deriving Repr, DecidableEq

/-- `wholenote = (60000 * 4) / tempo` (source lines 246, 488, 503). -/
def wholenoteOf (tempo : Int) : Int := Int.tdiv (60000 * 4) tempo

/-- One iteration of the note-duration computation (source lines 425-433):
positive duration code divides the whole note; a negative code is a dotted
note, `noteDuration = wholenote / |code|` then `noteDuration *= 1.5`.  The
C `*= 1.5` converts to `double` (exact for this range), multiplies by 1.5
(exact), and truncates back toward zero, which is `Int.tdiv (3 * n) 2`.
A zero code leaves `noteDuration` unchanged. -/
def noteDurationOf (wholenote divider old : Int) : Int :=
  if divider > 0 then Int.tdiv wholenote divider
  else if divider < 0 then Int.tdiv (3 * (Int.tdiv wholenote (divider.natAbs : Int))) 2
  else old

/-- Audible duration passed to `tone`: `noteDuration * 0.9` (source line 435).
The `double` product `n * 0.9` truncated to an integer equals
`⌊9n/10⌋` throughout the nonnegative range reachable here (the relative
excess of the double constant 0.9 over 9/10 is ≈2.5e-17, far below the
rounding slack at these magnitudes). -/
def toneDurMs (n : Int) : Int := Int.tdiv (9 * n) 10

/-- Digit pattern chosen by one iteration of the rendering loop
(source lines 204-212): while the remaining value is positive show its last
decimal digit, otherwise blank — except that digit 3 shows '0'. -/
def digitPattern (t : Int) (digit : Nat) : Nat :=
  if t > 0 then symbol.getD (Int.tmod t 10).toNat 0
  else if digit = 3 then symbol.getD 0 0
  else 0x0

/-- The four digit patterns produced by the `for (digit = 3; digit >= 0; ...)`
rendering loop (source lines 202-213, repeated at 267-278, 354-365, 405-416),
listed as `[digit0, digit1, digit2, digit3]`. -/
def renderDigits (t : Int) : List Nat :=
  let v3 := digitPattern t 3
  let t2 := if t > 0 then Int.tdiv t 10 else t
  let v2 := digitPattern t2 2
  let t1 := if t2 > 0 then Int.tdiv t2 10 else t2
  let v1 := digitPattern t1 1
  let t0 := if t1 > 0 then Int.tdiv t1 10 else t1
  let v0 := digitPattern t0 0
  [v0, v1, v2, v3]

/-- The `case displayStatus::time` branch (source lines 200-251): render the
time, blink the colon, apply encoder steps to `intensity` (clamped to
[0,10]), and fire the alarm when `alarmActive` and the current time matches
`alarmHour:alarmMinute:00`. -/
def timeCase (lib : MelodyLib) (st : ClockState) (now : DateTime) (ms : Nat) :
    ClockState :=
  let st := { st with
    led3On := st.alarmActive,
    digitValue := renderDigits ((now.hour : Int) * 100 + now.minute),
    colonOn := now.second % 2 != 0 }
  let st : ClockState :=
    if st.encoderPos > 0 then
      let i := st.intensity + 1
      let i := if i > 10 then 10 else i
      { st with intensity := i, encoderPos := 0 }
    else st
  let st : ClockState :=
    if st.encoderPos < 0 then
      let i := st.intensity - 1
      let i := if i < 0 then 0 else i
      { st with intensity := i, encoderPos := 0 }
    else st
  if st.alarmActive && ((now.hour : Int) == st.alarmHour) &&
      ((now.minute : Int) == st.alarmMinute) && (now.second == 0) then
    { st with
      currentDisplayStatus := .playingMelody,
      melody := some .mel3,
      tempo := lib.tempo3,
      wholenote := wholenoteOf lib.tempo3,
      currentNote := 0,
      noteDuration := 0,
      soundMillis := ms }
  else st

/-- Result of the 800ms-on/200ms-off blink block shared by setTime and
setAlarm: the three globals it writes. -/
structure BlinkOut where
  digitValue : List Nat
  colonOn : Bool
  blinkMillis : Nat
deriving Repr, DecidableEq

/-- The 800ms-on/200ms-off blink block shared by setTime and setAlarm
(source lines 255-279 and 342-366), over the globals it reads and writes:
during the off phase all digits are blanked and the colon is off; at 1000ms
the cycle restarts (`blinkMillis := ms`, colon back on); otherwise the
value is rendered and the colon keeps its state. -/
def blinkRender (blinkMillis : Nat) (colonOn : Bool) (toDisplay : Int)
    (ms : Nat) : BlinkOut :=
  if ms - blinkMillis > 800 then
    if ms - blinkMillis > 1000 then
      { digitValue := [0, 0, 0, 0], colonOn := true, blinkMillis := ms }
    else
      { digitValue := [0, 0, 0, 0], colonOn := false, blinkMillis := blinkMillis }
  else
    { digitValue := renderDigits toDisplay, colonOn := colonOn,
      blinkMillis := blinkMillis }

/-- The `case displayStatus::setTime` branch (source lines 252-305).  The
second component is the pending `RTC.adjust` delta in seconds. -/
def setTimeCase (st : ClockState) (now : DateTime) (ms : Nat) :
    ClockState × Option Int :=
  let st := { st with led3On := st.alarmActive }
  let bo := blinkRender st.blinkMillis st.colonOn
    ((now.hour : Int) * 100 + now.minute) ms
  let st : ClockState :=
    { st with digitValue := bo.digitValue, colonOn := bo.colonOn,
              blinkMillis := bo.blinkMillis }
  let (st, adj) : ClockState × Option Int :=
    if st.encoderPos > 0 then
      ({ st with encoderPos := 0, menuStartMillis := ms }, some (60 : Int))
    else (st, none)
  let (st, adj) : ClockState × Option Int :=
    if st.encoderPos < 0 then
      ({ st with encoderPos := 0, menuStartMillis := ms }, some (-60 : Int))
    else (st, adj)
  let st : ClockState :=
    if ms - st.menuStartMillis > menuDelay then
      { st with currentDisplayStatus := .time }
    else st
  (st, adj)

/-- The `case displayStatus::menu` branch (source lines 306-338): show the
active option's label (option 4 overlays the alarm on/off digit), cycle the
option with the encoder (wrapping within [0, menuItemCount-1]), and fall
back to the time view after the inactivity window. -/
def menuCase (st : ClockState) (ms : Nat) : ClockState :=
  let txt := (menuText.getD st.activeMenuOption.toNat "").data
  let dv := [getSymbol (txt.getD 0 (Char.ofNat 0)),
             getSymbol (txt.getD 1 (Char.ofNat 0)),
             getSymbol (txt.getD 2 (Char.ofNat 0)),
             getSymbol (txt.getD 3 (Char.ofNat 0))]
  let dv :=
    if st.activeMenuOption = 4 then
      dv.set 3 (if st.alarmActive then symbol.getD 1 0 else symbol.getD 0 0)
    else dv
  let st := { st with digitValue := dv }
  let st : ClockState :=
    if st.encoderPos > 0 then
      let a := st.activeMenuOption + 1
      let a := if a > menuItemCount - 1 then 0 else a
      { st with activeMenuOption := a, encoderPos := 0, menuStartMillis := ms }
    else st
  let st : ClockState :=
    if st.encoderPos < 0 then
      let a := st.activeMenuOption - 1
      let a := if a < 0 then menuItemCount - 1 else a
      { st with activeMenuOption := a, encoderPos := 0, menuStartMillis := ms }
    else st
  if ms - st.menuStartMillis > menuDelay then
    { st with currentDisplayStatus := .time }
  else st

/-- The `case displayStatus::setAlarm` branch (source lines 339-402): blink
the alarm time, apply encoder steps to the alarm minute with rollover into
the alarm hour, and fall back to the time view after the inactivity
window. -/
def setAlarmCase (st : ClockState) (ms : Nat) : ClockState :=
  let st := { st with led3On := st.alarmActive }
  let bo := blinkRender st.blinkMillis st.colonOn
    (st.alarmHour * 100 + st.alarmMinute) ms
  let st : ClockState :=
    { st with digitValue := bo.digitValue, colonOn := bo.colonOn,
              blinkMillis := bo.blinkMillis }
  let st : ClockState :=
    if st.encoderPos > 0 then
      let m := st.alarmMinute + 1
      let st : ClockState :=
        if m ≥ 60 then
          let h := st.alarmHour + 1
          let h := if h ≥ 24 then 0 else h
          { st with alarmMinute := 0, alarmHour := h }
        else { st with alarmMinute := m }
      { st with encoderPos := 0, menuStartMillis := ms }
    else st
  let st : ClockState :=
    if st.encoderPos < 0 then
      let m := st.alarmMinute - 1
      let st : ClockState :=
        if m < 0 then
          let h := st.alarmHour - 1
          let h := if h < 0 then 23 else h
          { st with alarmMinute := 59, alarmHour := h }
        else { st with alarmMinute := m }
      { st with encoderPos := 0, menuStartMillis := ms }
    else st
  if ms - st.menuStartMillis > menuDelay then
    { st with currentDisplayStatus := .time }
  else st

/-- The `case displayStatus::playingMelody` branch (source lines 403-450):
show the time with colon and LED3 alternating, advance the melody when the
current note has elapsed (emitting a `tone` command), and stop after
`maxPlayDuration`.  Returns the updated state, the emitted tone command and
whether `noTone` was called. -/
def playingMelodyCase (lib : MelodyLib) (st : ClockState) (now : DateTime)
    (ms : Nat) : ClockState × Option (Int × Int) × Bool :=
  let st := { st with
    digitValue := renderDigits ((now.hour : Int) * 100 + now.minute) }
  let l3 := now.second % 2 != 0
  let st := { st with led3On := l3, colonOn := !l3 }
  let mel := melodyOf lib st.melody
  let (st, tc) :=
    if ms - st.noteMillis > st.noteDuration.toNat then
      let divider := mel (st.currentNote + 1)
      let nd := noteDurationOf st.wholenote divider st.noteDuration
      let st := { st with noteDuration := nd, noteMillis := ms }
      let tc := some (mel st.currentNote, toneDurMs nd)
      let cn := st.currentNote + 2
      let cn := if mel cn = lib.END then 0 else cn
      ({ st with currentNote := cn }, tc)
    else (st, none)
  if ms - st.soundMillis > maxPlayDuration then
    ({ st with currentDisplayStatus := .time }, tc, true)
  else (st, tc, false)

/-- The push-button handler (source lines 456-531): on a low button level,
gated by the 500ms cooldown since `menuStartMillis`, dispatch on the current
state — time opens the menu, setTime/setAlarm/playingMelody return to time
(playingMelody also silencing the speaker), and menu acts on the selected
option.  Returns the updated state and whether `noTone` was called. -/
def buttonHandler (lib : MelodyLib) (st : ClockState) (ms : Nat)
    (buttonLow : Bool) : ClockState × Bool :=
  if buttonLow then
    if ms - st.menuStartMillis > 500 then
      let st := { st with menuStartMillis := ms }
      match st.currentDisplayStatus with
      | .time =>
        ({ st with currentDisplayStatus := .menu, colonOn := false,
                   led3On := false }, false)
      | .setAlarm => ({ st with currentDisplayStatus := .time }, false)
      | .setTime => ({ st with currentDisplayStatus := .time }, false)
      | .playingMelody => ({ st with currentDisplayStatus := .time }, true)
      | .menu =>
        if st.activeMenuOption = 0 then
          ({ st with currentDisplayStatus := .playingMelody,
                     melody := some .mel2, tempo := lib.tempo2,
                     wholenote := wholenoteOf lib.tempo2, currentNote := 0,
                     noteDuration := 0, soundMillis := ms,
                     colonOn := true }, false)
        else if st.activeMenuOption = 1 then
          ({ st with currentDisplayStatus := .playingMelody,
                     melody := some .mel1, tempo := lib.tempo1,
                     wholenote := wholenoteOf lib.tempo1, currentNote := 0,
                     noteDuration := 0, soundMillis := ms,
                     colonOn := true }, false)
        else if st.activeMenuOption = 2 then
          ({ st with currentDisplayStatus := .setTime, colonOn := true }, false)
        else if st.activeMenuOption = 3 then
          ({ st with currentDisplayStatus := .setAlarm, colonOn := true }, false)
        else if st.activeMenuOption = 4 then
          ({ st with currentDisplayStatus := .time,
                     alarmActive := !st.alarmActive, colonOn := true }, false)
        else (st, false)
    else (st, false)
  else (st, false)

/-- One foreground `loop()` iteration (source lines 177-532): dispatch on the
current state, then handle the push button.  Inputs: the RTC snapshot `now`,
the millisecond counter `ms` and the (active-low) button level. -/
def loopStep (lib : MelodyLib) (st : ClockState) (now : DateTime) (ms : Nat)
    (buttonLow : Bool) : ClockState × LoopEffects :=
  let (st, rtcAdj, tc, nt1) :=
    match st.currentDisplayStatus with
    | .time => (timeCase lib st now ms, none, none, false)
    | .setTime =>
      let (s, a) := setTimeCase st now ms
      (s, a, none, false)
    | .menu => (menuCase st ms, none, none, false)
    | .setAlarm => (setAlarmCase st ms, none, none, false)
    | .playingMelody =>
      let (s, tc, nt) := playingMelodyCase lib st now ms
      (s, none, tc, nt)
  let (st, nt2) := buttonHandler lib st ms buttonLow
  (st, { rtcAdjust := rtcAdj, toneCmd := tc, noToneCalled := nt1 || nt2 })

/-- The foreground state right after the `switch`, before the push-button
handler (the first component of each case's result); proof convenience. -/
def caseResult (lib : MelodyLib) (st : ClockState) (now : DateTime) (ms : Nat) :
    ClockState :=
  match st.currentDisplayStatus with
  | .time => timeCase lib st now ms
  | .setTime => (setTimeCase st now ms).1
  | .menu => menuCase st ms
  | .setAlarm => setAlarmCase st ms
  | .playingMelody => (playingMelodyCase lib st now ms).1

/-! ### The display-multiplexing interrupt routine `iProcess` -/

/-- The foreground-owned values read by the interrupt routine. -/
structure IDisplay where
  digitValue : List Nat
  colonOn : Bool
  led3On : Bool
  intensity : Int
deriving Repr, DecidableEq

/-- The interrupt routine's own state: the active digit index and the
sub-tick counter within one digit dwell. -/
structure IState where
  drawDigit : Nat
  stepCounter : Int
deriving Repr, DecidableEq

/-- Bitwise NOT of a byte (the `~` applied before each `spiTransfer`;
both registers are active-low). -/
def inv8 (b : Nat) : Nat := 255 - b % 256

/-- The two bytes shifted out in one interrupt tick: `seg` is the first
transfer (segment register #2), `sel` the second (digit-select register #1). -/
structure ShiftOut where
  seg : Nat
  sel : Nat
deriving Repr, DecidableEq

/-- The actively-driven output for digit `d` (source lines 540-544): the
digit's segment pattern, and its select bit together with the colon and LED3
bits. -/
def activeOut (ds : IDisplay) (d : Nat) : ShiftOut where
  seg := inv8 (ds.digitValue.getD d 0)
  sel := inv8 ((digitCode.getD d 0) |||
               (if ds.colonOn then colonCode else 0) |||
               (if ds.led3On then led3Code else 0))

/-- The blanked output for digit `d` (source lines 548-552): empty segment
pattern with the same digit selected. -/
def blankOut (d : Nat) : ShiftOut where
  seg := inv8 0
  sel := inv8 (digitCode.getD d 0)

/-- One timer-interrupt tick (source `iProcess`, lines 534-562): drive the
active digit while `stepCounter <= intensity`, otherwise blank it; after 11
sub-ticks advance to the next digit cyclically and reset the counter. -/
def iProcess (ds : IDisplay) (ist : IState) : ShiftOut × IState :=
  let out :=
    if ist.stepCounter ≤ ds.intensity then activeOut ds ist.drawDigit
    else blankOut ist.drawDigit
  let sc := ist.stepCounter + 1
  if sc > 10 then
    (out, { drawDigit := if ist.drawDigit = 3 then 0 else ist.drawDigit + 1,
            stepCounter := 0 })
  else
    (out, { drawDigit := ist.drawDigit, stepCounter := sc })

/-- Run `n` consecutive interrupt ticks, collecting the emitted outputs. -/
def runTicks (ds : IDisplay) : Nat → IState → List ShiftOut × IState
  | 0, ist => ([], ist)
  | n + 1, ist =>
    let (o, ist') := iProcess ds ist
    let (os, fin) := runTicks ds n ist'
    (o :: os, fin)

/-- A concrete melody library for witnesses. -/
def libW : MelodyLib where
  melody1 := fun _ => 440
  melody2 := fun _ => 330
  melody3 := fun _ => 262
  tempo1 := 140
  tempo2 := 114
  tempo3 := 120
  END := -1

/-! ### Dispatch lemmas: one loop iteration with the button released -/

theorem loopStep_time (lib : MelodyLib) (st : ClockState) (now : DateTime)
    (ms : Nat) (hst : st.currentDisplayStatus = .time) :
    loopStep lib st now ms false =
      (timeCase lib st now ms, ⟨none, none, false⟩) := by
  simp [loopStep, hst, buttonHandler]

theorem loopStep_setTime (lib : MelodyLib) (st : ClockState) (now : DateTime)
    (ms : Nat) (hst : st.currentDisplayStatus = .setTime) :
    loopStep lib st now ms false =
      ((setTimeCase st now ms).1, ⟨(setTimeCase st now ms).2, none, false⟩) := by
  simp [loopStep, hst, buttonHandler]

theorem loopStep_menu (lib : MelodyLib) (st : ClockState) (now : DateTime)
    (ms : Nat) (hst : st.currentDisplayStatus = .menu) :
    loopStep lib st now ms false = (menuCase st ms, ⟨none, none, false⟩) := by
  simp [loopStep, hst, buttonHandler]

theorem loopStep_setAlarm (lib : MelodyLib) (st : ClockState) (now : DateTime)
    (ms : Nat) (hst : st.currentDisplayStatus = .setAlarm) :
    loopStep lib st now ms false = (setAlarmCase st ms, ⟨none, none, false⟩) := by
  simp [loopStep, hst, buttonHandler]

theorem loopStep_playing (lib : MelodyLib) (st : ClockState) (now : DateTime)
    (ms : Nat) (hst : st.currentDisplayStatus = .playingMelody) :
    loopStep lib st now ms false =
      ((playingMelodyCase lib st now ms).1,
       ⟨none, (playingMelodyCase lib st now ms).2.1,
        (playingMelodyCase lib st now ms).2.2⟩) := by
  simp [loopStep, hst, buttonHandler]

/-- The colon flag produced by the Time branch. -/
theorem timeCase_colonOn (lib : MelodyLib) (st : ClockState) (now : DateTime)
    (ms : Nat) : (timeCase lib st now ms).colonOn = (now.second % 2 != 0) := by
  simp only [timeCase]
  split_ifs <;> rfl

/-! ### Characterizations of the setAlarm branch -/

set_option maxHeartbeats 800000 in
theorem setAlarmCase_alarm_pos (st : ClockState) (ms : Nat)
    (h : st.encoderPos > 0) :
    (setAlarmCase st ms).alarmMinute =
      (if st.alarmMinute + 1 ≥ 60 then 0 else st.alarmMinute + 1) ∧
    (setAlarmCase st ms).alarmHour =
      (if st.alarmMinute + 1 ≥ 60 then
        (if st.alarmHour + 1 ≥ 24 then 0 else st.alarmHour + 1)
       else st.alarmHour) := by
  simp only [setAlarmCase]
  split_ifs <;>
    simp_all

set_option maxHeartbeats 800000 in
theorem setAlarmCase_alarm_neg (st : ClockState) (ms : Nat)
    (h : st.encoderPos < 0) :
    (setAlarmCase st ms).alarmMinute =
      (if st.alarmMinute - 1 < 0 then 59 else st.alarmMinute - 1) ∧
    (setAlarmCase st ms).alarmHour =
      (if st.alarmMinute - 1 < 0 then
        (if st.alarmHour - 1 < 0 then 23 else st.alarmHour - 1)
       else st.alarmHour) := by
  simp only [setAlarmCase]
  split_ifs <;>
    simp_all <;>
    omega

set_option maxHeartbeats 800000 in
theorem setAlarmCase_alarm_zero (st : ClockState) (ms : Nat)
    (h : st.encoderPos = 0) :
    (setAlarmCase st ms).alarmMinute = st.alarmMinute ∧
    (setAlarmCase st ms).alarmHour = st.alarmHour := by
  simp only [setAlarmCase]
  split_ifs <;>
    simp_all

/-! ### Claims -/

/-- C2 (corrected): in the Time state, for every current time, the colon
overlay is ON when the current second is odd and OFF when it is even; the
source sets `colonOn = (now.second() % 2 == 0) ? 0 : 1`, the opposite phase
of the claimed one. -/
theorem time_colon_on_iff_odd_second (lib : MelodyLib) (st : ClockState)
    (now : DateTime) (ms : Nat)
    (hst : st.currentDisplayStatus = .time) :
    (loopStep lib st now ms false).1.colonOn = true ↔ now.second % 2 = 1 := by
  rw [loopStep_time lib st now ms hst]
  simp only [timeCase_colonOn, bne_iff_ne, ne_eq, decide_eq_true_eq]
  omega

/-- C2 witness: at second 1 (odd) the Time state switches the colon on. -/
theorem time_colon_on_iff_odd_second_witness :
    (loopStep libW initialState ⟨12, 30, 1⟩ 5 false).1.colonOn = true ↔
      (1 : Nat) % 2 = 1 :=
  time_colon_on_iff_odd_second libW initialState ⟨12, 30, 1⟩ 5 rfl

/-- C2 counterexample: at 12:30:00 (second 0, even) a Time-state iteration
leaves the colon overlay OFF, refuting "on when the current second is
even". -/
theorem time_colon_even_second_off_cex :
    (loopStep libW initialState ⟨12, 30, 0⟩ 0 false).1.colonOn = false := by
  rfl

/-- Tone command emitted by the playingMelody branch when the current note
has elapsed. -/
theorem playing_toneCmd (lib : MelodyLib) (st : ClockState) (now : DateTime)
    (ms : Nat) (hdue : ms - st.noteMillis > st.noteDuration.toNat) :
    (playingMelodyCase lib st now ms).2.1 =
      some (melodyOf lib st.melody st.currentNote,
            toneDurMs (noteDurationOf st.wholenote
              (melodyOf lib st.melody (st.currentNote + 1)) st.noteDuration)) := by
  simp [playingMelodyCase, hdue]
  split <;> rfl

/-- C4: melody note timing.  `wholenote = 240000 / tempo`; a positive
duration code `c` gives `noteDuration = wholenote / c`; a negative code
`-c` (dotted) gives the truncation of `(wholenote / c) * 1.5`; the emitted
tone command's audible duration is the truncation of `0.9 * noteDuration`
(`toneDurMs`, i.e. `⌊9·n/10⌋`); and the claimed instances: tempo 120 gives
wholenote 2000ms, code 4 gives 500ms, code -4 gives 750ms (and the tone
command for a 500ms note lasts 450ms). -/
theorem melody_note_timing (tempo c wn old n : Int)
    (ht : 0 < tempo) (hc : 0 < c) (hn : 0 ≤ n)
    (lib : MelodyLib) (st : ClockState) (now : DateTime) (ms : Nat)
    (hst : st.currentDisplayStatus = .playingMelody)
    (hdue : ms - st.noteMillis > st.noteDuration.toNat) :
    wholenoteOf tempo = 240000 / tempo ∧
    noteDurationOf wn c old = Int.tdiv wn c ∧
    noteDurationOf wn (-c) old = Int.tdiv (3 * Int.tdiv wn c) 2 ∧
    (10 * toneDurMs n ≤ 9 * n ∧ 9 * n < 10 * toneDurMs n + 10) ∧
    wholenoteOf 120 = 2000 ∧
    noteDurationOf (wholenoteOf 120) 4 0 = 500 ∧
    noteDurationOf (wholenoteOf 120) (-4) 0 = 750 ∧
    toneDurMs 500 = 450 ∧
    (loopStep lib st now ms false).2.toneCmd =
      some (melodyOf lib st.melody st.currentNote,
            toneDurMs (noteDurationOf st.wholenote
              (melodyOf lib st.melody (st.currentNote + 1)) st.noteDuration)) := by
  refine ⟨?_, ?_, ?_, ?_, by decide, by decide, by decide, by decide, ?_⟩
  · rw [wholenoteOf, Int.tdiv_eq_ediv (by norm_num) (le_of_lt ht)]
    norm_num
  · simp [noteDurationOf, hc]
  · have h1 : ¬(0 < -c) := by omega
    have h2 : -c < 0 := by omega
    have h3 : (((-c).natAbs : Int)) = c := by
      rw [Int.ofNat_natAbs_of_nonpos (by omega)]
      ring
    simp [noteDurationOf, h1, h2, h3, abs_of_pos hc]
  · rw [toneDurMs, Int.tdiv_eq_ediv (by omega) (by omega)]
    omega
  · rw [loopStep_playing lib st now ms hst]
    simpa using playing_toneCmd lib st now ms hdue

/-- C4 witness: the timing facts instantiated at tempo 120, code 4, a
50ms note, and a concrete due-note playingMelody iteration. -/
theorem melody_note_timing_witness :
    wholenoteOf 120 = 240000 / 120 ∧
    noteDurationOf 2000 4 0 = Int.tdiv 2000 4 ∧
    noteDurationOf 2000 (-4) 0 = Int.tdiv (3 * Int.tdiv 2000 4) 2 ∧
    (10 * toneDurMs 50 ≤ 9 * 50 ∧ 9 * 50 < 10 * toneDurMs 50 + 10) ∧
    wholenoteOf 120 = 2000 ∧
    noteDurationOf (wholenoteOf 120) 4 0 = 500 ∧
    noteDurationOf (wholenoteOf 120) (-4) 0 = 750 ∧
    toneDurMs 500 = 450 ∧
    (loopStep libW
      { initialState with currentDisplayStatus := .playingMelody,
                          melody := some .mel3, wholenote := 2000 }
      ⟨7, 0, 0⟩ 100 false).2.toneCmd =
      some (262, toneDurMs (noteDurationOf 2000 262 0)) :=
  melody_note_timing 120 4 2000 0 50 (by decide) (by decide) (by decide)
    libW _ ⟨7, 0, 0⟩ 100 rfl (by decide)

/-- C5: in the SetAlarm state, with alarm minute in [0,59] and hour in
[0,23], one positive encoder step increments the alarm minute with 59→0
wraparound carrying an hour increment wrapping 23→0, one negative step
decrements with 0→59 borrow wrapping the hour 0→23, and no step leaves both
unchanged. -/
theorem setAlarm_encoder_wraps (lib : MelodyLib) (st : ClockState)
    (now : DateTime) (ms : Nat)
    (hst : st.currentDisplayStatus = .setAlarm)
    (hm0 : 0 ≤ st.alarmMinute) (hm1 : st.alarmMinute ≤ 59)
    (hh0 : 0 ≤ st.alarmHour) (hh1 : st.alarmHour ≤ 23) :
    ((loopStep lib st now ms false).1.alarmMinute,
     (loopStep lib st now ms false).1.alarmHour) =
      (if st.encoderPos > 0 then
        (if st.alarmMinute = 59 then (0 : Int) else st.alarmMinute + 1,
         if st.alarmMinute = 59 then
           (if st.alarmHour = 23 then (0 : Int) else st.alarmHour + 1)
         else st.alarmHour)
       else if st.encoderPos < 0 then
        (if st.alarmMinute = 0 then 59 else st.alarmMinute - 1,
         if st.alarmMinute = 0 then
           (if st.alarmHour = 0 then 23 else st.alarmHour - 1)
         else st.alarmHour)
       else (st.alarmMinute, st.alarmHour)) := by
  simp only [loopStep_setAlarm lib st now ms hst]
  rcases lt_trichotomy st.encoderPos 0 with hneg | hzero | hpos
  · obtain ⟨e1, e2⟩ := setAlarmCase_alarm_neg st ms hneg
    rw [e1, e2, if_neg (show ¬(st.encoderPos > 0) by omega), if_pos hneg]
    rw [Prod.mk.injEq]
    constructor <;> (split_ifs <;> omega)
  · obtain ⟨e1, e2⟩ := setAlarmCase_alarm_zero st ms hzero
    rw [e1, e2, if_neg (show ¬(st.encoderPos > 0) by omega),
      if_neg (show ¬(st.encoderPos < 0) by omega)]
  · obtain ⟨e1, e2⟩ := setAlarmCase_alarm_pos st ms hpos
    rw [e1, e2, if_pos hpos]
    rw [Prod.mk.injEq]
    constructor <;> (split_ifs <;> omega)

/-- C5 witness: at alarm time 23:59 in SetAlarm, one positive encoder step
wraps the alarm to 00:00. -/
theorem setAlarm_encoder_wraps_witness :
    ((loopStep libW
       { initialState with currentDisplayStatus := .setAlarm,
                           alarmMinute := 59, alarmHour := 23,
                           encoderPos := 1 }
       ⟨1, 2, 3⟩ 100 false).1.alarmMinute,
     (loopStep libW
       { initialState with currentDisplayStatus := .setAlarm,
                           alarmMinute := 59, alarmHour := 23,
                           encoderPos := 1 }
       ⟨1, 2, 3⟩ 100 false).1.alarmHour) = (0, 0) :=
  (setAlarm_encoder_wraps libW
    { initialState with currentDisplayStatus := .setAlarm,
                        alarmMinute := 59, alarmHour := 23, encoderPos := 1 }
    ⟨1, 2, 3⟩ 100 rfl (by decide) (by decide) (by decide) (by decide)).trans
    (by decide)

theorem playingMelodyCase_status (lib : MelodyLib) (st : ClockState)
    (now : DateTime) (ms : Nat) :
    (playingMelodyCase lib st now ms).1.currentDisplayStatus =
      (if ms - st.soundMillis > maxPlayDuration then .time
       else st.currentDisplayStatus) ∧
    (playingMelodyCase lib st now ms).1.menuStartMillis = st.menuStartMillis ∧
    (playingMelodyCase lib st now ms).1.encoderPos = st.encoderPos ∧
    (playingMelodyCase lib st now ms).1.melody = st.melody ∧
    (playingMelodyCase lib st now ms).1.intensity = st.intensity ∧
    (playingMelodyCase lib st now ms).1.activeMenuOption = st.activeMenuOption ∧
    (playingMelodyCase lib st now ms).1.alarmMinute = st.alarmMinute ∧
    (playingMelodyCase lib st now ms).1.alarmHour = st.alarmHour := by
  simp [playingMelodyCase]
  split_ifs <;> simp_all

theorem buttonHandler_status (lib : MelodyLib) (st : ClockState) (ms : Nat)
    (b : Bool) :
    (buttonHandler lib st ms b).1.currentDisplayStatus =
      (if b = true ∧ ms - st.menuStartMillis > 500 then
        (match st.currentDisplayStatus with
         | .time => .menu
         | .setAlarm => .time
         | .setTime => .time
         | .playingMelody => .time
         | .menu =>
           if st.activeMenuOption = 0 then .playingMelody
           else if st.activeMenuOption = 1 then .playingMelody
           else if st.activeMenuOption = 2 then .setTime
           else if st.activeMenuOption = 3 then .setAlarm
           else if st.activeMenuOption = 4 then .time
           else .menu)
       else st.currentDisplayStatus) := by
  cases b
  · simp [buttonHandler]
  · simp only [buttonHandler]
    split_ifs <;> try simp_all
    all_goals cases h : st.currentDisplayStatus <;> simp_all

theorem loopStep_playing_status (lib : MelodyLib) (st : ClockState)
    (now : DateTime) (ms : Nat) (b : Bool)
    (h2 : st.currentDisplayStatus = .playingMelody) :
    (loopStep lib st now ms b).1.currentDisplayStatus =
      (if b = true ∧ ms - st.menuStartMillis > 500 then
        (if ms - st.soundMillis > maxPlayDuration then .menu else .time)
       else (if ms - st.soundMillis > maxPlayDuration then .time
             else .playingMelody)) := by
  rcases hp : playingMelodyCase lib st now ms with ⟨s, tc, nt⟩
  have hs : s = (playingMelodyCase lib st now ms).1 := by rw [hp]
  obtain ⟨e1, e2, _⟩ := playingMelodyCase_status lib st now ms
  rcases hb : buttonHandler lib s ms b with ⟨s2, n2⟩
  have hs2 : s2 = (buttonHandler lib s ms b).1 := by rw [hb]
  simp only [loopStep, h2, hp, hb]
  rw [hs2, buttonHandler_status, hs, e1, e2, h2]
  split_ifs <;> rfl

theorem timeCase_frame (lib : MelodyLib) (st : ClockState) (now : DateTime)
    (ms : Nat) :
    (timeCase lib st now ms).activeMenuOption = st.activeMenuOption ∧
    (timeCase lib st now ms).alarmMinute = st.alarmMinute ∧
    (timeCase lib st now ms).alarmHour = st.alarmHour ∧
    (timeCase lib st now ms).alarmActive = st.alarmActive ∧
    (timeCase lib st now ms).menuStartMillis = st.menuStartMillis := by
  simp only [timeCase]; split_ifs <;> simp_all

theorem timeCase_intensity (lib : MelodyLib) (st : ClockState) (now : DateTime)
    (ms : Nat) :
    (timeCase lib st now ms).intensity =
      (if st.encoderPos > 0 then
        (if st.intensity + 1 > 10 then 10 else st.intensity + 1)
       else if st.encoderPos < 0 then
        (if st.intensity - 1 < 0 then 0 else st.intensity - 1)
       else st.intensity) := by
  simp only [timeCase]; split_ifs <;> simp_all <;> omega

theorem timeCase_encoderPos (lib : MelodyLib) (st : ClockState) (now : DateTime)
    (ms : Nat) :
    (timeCase lib st now ms).encoderPos =
      (if st.encoderPos > 0 then 0 else if st.encoderPos < 0 then 0
       else st.encoderPos) := by
  simp only [timeCase]; split_ifs <;> simp_all <;> omega

theorem setTimeCase_frame (st : ClockState) (now : DateTime) (ms : Nat) :
    (setTimeCase st now ms).1.intensity = st.intensity ∧
    (setTimeCase st now ms).1.activeMenuOption = st.activeMenuOption ∧
    (setTimeCase st now ms).1.alarmMinute = st.alarmMinute ∧
    (setTimeCase st now ms).1.alarmHour = st.alarmHour ∧
    (setTimeCase st now ms).1.melody = st.melody := by
  simp only [setTimeCase]
  split_ifs <;> simp_all

theorem setTimeCase_encoderPos (st : ClockState) (now : DateTime) (ms : Nat) :
    (setTimeCase st now ms).1.encoderPos =
      (if st.encoderPos > 0 then 0 else if st.encoderPos < 0 then 0
       else st.encoderPos) := by
  simp only [setTimeCase]
  split_ifs <;> simp_all <;> omega

theorem menuCase_frame (st : ClockState) (ms : Nat) :
    (menuCase st ms).intensity = st.intensity ∧
    (menuCase st ms).alarmMinute = st.alarmMinute ∧
    (menuCase st ms).alarmHour = st.alarmHour ∧
    (menuCase st ms).alarmActive = st.alarmActive ∧
    (menuCase st ms).melody = st.melody := by
  simp only [menuCase]; split_ifs <;> simp_all

theorem menuCase_activeMenuOption (st : ClockState) (ms : Nat) :
    (menuCase st ms).activeMenuOption =
      (if st.encoderPos > 0 then
        (if st.activeMenuOption + 1 > menuItemCount - 1 then 0
         else st.activeMenuOption + 1)
       else if st.encoderPos < 0 then
        (if st.activeMenuOption - 1 < 0 then menuItemCount - 1
         else st.activeMenuOption - 1)
       else st.activeMenuOption) := by
  simp only [menuCase]; split_ifs <;> simp_all <;> omega

theorem menuCase_encoderPos (st : ClockState) (ms : Nat) :
    (menuCase st ms).encoderPos =
      (if st.encoderPos > 0 then 0 else if st.encoderPos < 0 then 0
       else st.encoderPos) := by
  simp only [menuCase]; split_ifs <;> simp_all <;> omega

theorem setAlarmCase_frame (st : ClockState) (ms : Nat) :
    (setAlarmCase st ms).intensity = st.intensity ∧
    (setAlarmCase st ms).activeMenuOption = st.activeMenuOption ∧
    (setAlarmCase st ms).melody = st.melody := by
  simp only [setAlarmCase]
  split_ifs <;> simp_all

theorem setAlarmCase_encoderPos (st : ClockState) (ms : Nat) :
    (setAlarmCase st ms).encoderPos =
      (if st.encoderPos > 0 then 0 else if st.encoderPos < 0 then 0
       else st.encoderPos) := by
  simp only [setAlarmCase]
  split_ifs <;> simp_all

theorem buttonHandler_frame (lib : MelodyLib) (st : ClockState) (ms : Nat)
    (b : Bool) :
    (buttonHandler lib st ms b).1.intensity = st.intensity ∧
    (buttonHandler lib st ms b).1.activeMenuOption = st.activeMenuOption ∧
    (buttonHandler lib st ms b).1.alarmMinute = st.alarmMinute ∧
    (buttonHandler lib st ms b).1.alarmHour = st.alarmHour ∧
    (buttonHandler lib st ms b).1.encoderPos = st.encoderPos := by
  cases b <;> simp only [buttonHandler] <;> split_ifs <;>
    (try cases h : st.currentDisplayStatus) <;> simp_all

theorem setAlarmCase_status_timeout (st : ClockState) (ms : Nat)
    (h0 : st.encoderPos = 0) (htm : ms - st.menuStartMillis > menuDelay) :
    (setAlarmCase st ms).currentDisplayStatus = .time := by
  simp only [setAlarmCase, h0]
  split_ifs <;> simp_all

theorem setTimeCase_status_timeout (st : ClockState) (now : DateTime) (ms : Nat)
    (h0 : st.encoderPos = 0) (htm : ms - st.menuStartMillis > menuDelay) :
    (setTimeCase st now ms).1.currentDisplayStatus = .time := by
  simp only [setTimeCase, h0]
  split_ifs <;> simp_all

theorem menuCase_status_timeout (st : ClockState) (ms : Nat)
    (h0 : st.encoderPos = 0) (htm : ms - st.menuStartMillis > menuDelay) :
    (menuCase st ms).currentDisplayStatus = .time := by
  simp only [menuCase, h0]
  split_ifs <;> simp_all


theorem menuCase_status_cases (st : ClockState) (ms : Nat) :
    (menuCase st ms).currentDisplayStatus = .time ∨
    (menuCase st ms).currentDisplayStatus = st.currentDisplayStatus := by
  simp only [menuCase]
  split_ifs <;> simp_all

theorem setTimeCase_status_cases (st : ClockState) (now : DateTime) (ms : Nat) :
    (setTimeCase st now ms).1.currentDisplayStatus = .time ∨
    (setTimeCase st now ms).1.currentDisplayStatus = st.currentDisplayStatus := by
  simp only [setTimeCase]
  split_ifs <;> simp_all

theorem setAlarmCase_status_cases (st : ClockState) (ms : Nat) :
    (setAlarmCase st ms).currentDisplayStatus = .time ∨
    (setAlarmCase st ms).currentDisplayStatus = st.currentDisplayStatus := by
  simp only [setAlarmCase]
  split_ifs <;> simp_all

set_option maxHeartbeats 800000 in
theorem timeCase_alarm (lib : MelodyLib) (st : ClockState) (now : DateTime)
    (ms : Nat) :
    ((timeCase lib st now ms).currentDisplayStatus =
      (if st.alarmActive ∧ (now.hour : Int) = st.alarmHour ∧
          (now.minute : Int) = st.alarmMinute ∧ now.second = 0 then
        displayStatus.playingMelody
       else st.currentDisplayStatus)) ∧
    ((timeCase lib st now ms).melody =
      (if st.alarmActive ∧ (now.hour : Int) = st.alarmHour ∧
          (now.minute : Int) = st.alarmMinute ∧ now.second = 0 then
        some MelodySel.mel3
       else st.melody)) ∧
    ((timeCase lib st now ms).tempo =
      (if st.alarmActive ∧ (now.hour : Int) = st.alarmHour ∧
          (now.minute : Int) = st.alarmMinute ∧ now.second = 0 then
        lib.tempo3
       else st.tempo)) ∧
    ((timeCase lib st now ms).wholenote =
      (if st.alarmActive ∧ (now.hour : Int) = st.alarmHour ∧
          (now.minute : Int) = st.alarmMinute ∧ now.second = 0 then
        wholenoteOf lib.tempo3
       else st.wholenote)) ∧
    ((timeCase lib st now ms).currentNote =
      (if st.alarmActive ∧ (now.hour : Int) = st.alarmHour ∧
          (now.minute : Int) = st.alarmMinute ∧ now.second = 0 then
        0
       else st.currentNote)) ∧
    ((timeCase lib st now ms).noteDuration =
      (if st.alarmActive ∧ (now.hour : Int) = st.alarmHour ∧
          (now.minute : Int) = st.alarmMinute ∧ now.second = 0 then
        0
       else st.noteDuration)) ∧
    ((timeCase lib st now ms).soundMillis =
      (if st.alarmActive ∧ (now.hour : Int) = st.alarmHour ∧
          (now.minute : Int) = st.alarmMinute ∧ now.second = 0 then
        ms
       else st.soundMillis)) := by
  simp only [timeCase]
  split_ifs <;> simp_all

/-- C7: from Menu, SetTime or SetAlarm, an iteration with no encoder or
button input and more than the 9000ms inactivity window elapsed since the
last input returns to Time.  A PlayingMelody iteration instead ignores that
window: it leaves PlayingMelody exactly for the 60000ms maximum play
duration or for a debounced (500ms-cooldown) button press — the second
conjunct fully characterizes the resulting state. -/
theorem inactivity_and_play_timeouts (lib : MelodyLib) (st st2 : ClockState)
    (now : DateTime) (ms : Nat) (b : Bool)
    (h1 : st.currentDisplayStatus = .menu ∨ st.currentDisplayStatus = .setTime ∨
          st.currentDisplayStatus = .setAlarm)
    (h0 : st.encoderPos = 0)
    (htm : ms - st.menuStartMillis > menuDelay)
    (h2 : st2.currentDisplayStatus = .playingMelody) :
    (loopStep lib st now ms false).1.currentDisplayStatus = .time ∧
    (loopStep lib st2 now ms b).1.currentDisplayStatus =
      (if b = true ∧ ms - st2.menuStartMillis > 500 then
        (if ms - st2.soundMillis > maxPlayDuration then .menu else .time)
       else (if ms - st2.soundMillis > maxPlayDuration then .time
             else .playingMelody)) := by
  constructor
  · rcases h1 with h | h | h
    · rw [loopStep_menu lib st now ms h]
      exact menuCase_status_timeout st ms h0 htm
    · rw [loopStep_setTime lib st now ms h]
      exact setTimeCase_status_timeout st now ms h0 htm
    · rw [loopStep_setAlarm lib st now ms h]
      exact setAlarmCase_status_timeout st ms h0 htm
  · exact loopStep_playing_status lib st2 now ms b h2

/-- C7 witness: 9001ms after the last input, a Menu iteration falls back to
Time while a PlayingMelody iteration (9001ms into the song) stays in
PlayingMelody. -/
theorem inactivity_and_play_timeouts_witness :
    (loopStep libW
      { initialState with currentDisplayStatus := .menu }
      ⟨1, 2, 3⟩ 9001 false).1.currentDisplayStatus = .time ∧
    (loopStep libW
      { initialState with currentDisplayStatus := .playingMelody,
                          melody := some .mel1 }
      ⟨1, 2, 3⟩ 9001 false).1.currentDisplayStatus = .playingMelody := by
  have h := inactivity_and_play_timeouts libW
    { initialState with currentDisplayStatus := .menu }
    { initialState with currentDisplayStatus := .playingMelody,
                        melody := some .mel1 }
    ⟨1, 2, 3⟩ 9001 false (Or.inl rfl) rfl (by decide) rfl
  exact ⟨h.1, h.2.trans (by decide)⟩

/-- C1: while in Time (with the button released), the transition to
PlayingMelody happens in an iteration if and only if the alarm is enabled
and the current time is exactly alarmHour:alarmMinute:00; when it fires,
the fixed alarm melody (melody3 with tempo3) is selected and playback
state is initialized; when it does not, the state stays Time and the
melody selection is untouched.  From any non-Time state (button released)
the comparison is never performed: the melody selection is untouched and
no transition into PlayingMelody occurs. -/
theorem alarm_fires_iff (lib : MelodyLib) (st st2 : ClockState)
    (now : DateTime) (ms : Nat)
    (hst : st.currentDisplayStatus = .time)
    (h2 : st2.currentDisplayStatus ≠ .time) :
    ((loopStep lib st now ms false).1.currentDisplayStatus = .playingMelody ↔
      (st.alarmActive ∧ (now.hour : Int) = st.alarmHour ∧
       (now.minute : Int) = st.alarmMinute ∧ now.second = 0)) ∧
    ((st.alarmActive ∧ (now.hour : Int) = st.alarmHour ∧
      (now.minute : Int) = st.alarmMinute ∧ now.second = 0) →
      (loopStep lib st now ms false).1.melody = some MelodySel.mel3 ∧
      (loopStep lib st now ms false).1.tempo = lib.tempo3 ∧
      (loopStep lib st now ms false).1.wholenote = wholenoteOf lib.tempo3 ∧
      (loopStep lib st now ms false).1.currentNote = 0 ∧
      (loopStep lib st now ms false).1.noteDuration = 0 ∧
      (loopStep lib st now ms false).1.soundMillis = ms) ∧
    (¬(st.alarmActive ∧ (now.hour : Int) = st.alarmHour ∧
       (now.minute : Int) = st.alarmMinute ∧ now.second = 0) →
      (loopStep lib st now ms false).1.currentDisplayStatus = .time ∧
      (loopStep lib st now ms false).1.melody = st.melody) ∧
    ((loopStep lib st2 now ms false).1.melody = st2.melody ∧
     ((loopStep lib st2 now ms false).1.currentDisplayStatus = .playingMelody →
      st2.currentDisplayStatus = .playingMelody)) := by
  obtain ⟨e1, e2, e3, e4, e5, e6, e7⟩ := timeCase_alarm lib st now ms
  have hd := loopStep_time lib st now ms hst
  refine ⟨?_, ?_, ?_, ?_⟩
  · rw [hd]
    by_cases hc : st.alarmActive ∧ (now.hour : Int) = st.alarmHour ∧
      (now.minute : Int) = st.alarmMinute ∧ now.second = 0
    · simp [e1, hc]
    · simp only [e1, if_neg hc, hst]
      simp [hc]
  · intro hc
    rw [hd]
    refine ⟨?_, ?_, ?_, ?_, ?_, ?_⟩ <;>
      simp [e2, e3, e4, e5, e6, e7, hc]
  · intro hc
    rw [hd]
    constructor
    · simp only [e1, if_neg hc, hst]
    · simp [e2, hc]
  · cases hs2 : st2.currentDisplayStatus with
    | time => exact absurd hs2 h2
    | menu =>
      rw [loopStep_menu lib st2 now ms hs2]
      refine ⟨(menuCase_frame st2 ms).2.2.2.2, fun hp => ?_⟩
      rcases menuCase_status_cases st2 ms with h | h <;> simp_all
    | setTime =>
      rw [loopStep_setTime lib st2 now ms hs2]
      refine ⟨(setTimeCase_frame st2 now ms).2.2.2.2, fun hp => ?_⟩
      rcases setTimeCase_status_cases st2 now ms with h | h <;> simp_all
    | setAlarm =>
      rw [loopStep_setAlarm lib st2 now ms hs2]
      refine ⟨(setAlarmCase_frame st2 ms).2.2, fun hp => ?_⟩
      rcases setAlarmCase_status_cases st2 ms with h | h <;> simp_all
    | playingMelody =>
      rw [loopStep_playing lib st2 now ms hs2]
      exact ⟨(playingMelodyCase_status lib st2 now ms).2.2.2.1, fun _ => rfl⟩

/-- C1 witness: with the alarm enabled and set to 07:00, an iteration in
Time at 07:00:00 selects melody3/tempo3 and enters PlayingMelody; the
non-Time part is instantiated in the Menu state. -/
theorem alarm_fires_iff_witness :
    ((loopStep libW
        { initialState with alarmActive := true } ⟨7, 0, 0⟩ 42
        false).1.currentDisplayStatus = .playingMelody ↔
      (({ initialState with alarmActive := true } : ClockState).alarmActive ∧
       ((7 : Nat) : Int) = (7 : Int) ∧ ((0 : Nat) : Int) = (0 : Int) ∧
       (0 : Nat) = 0)) ∧
    ((({ initialState with alarmActive := true } : ClockState).alarmActive ∧
      ((7 : Nat) : Int) = (7 : Int) ∧ ((0 : Nat) : Int) = (0 : Int) ∧
      (0 : Nat) = 0) →
      (loopStep libW { initialState with alarmActive := true } ⟨7, 0, 0⟩ 42
        false).1.melody = some MelodySel.mel3 ∧
      (loopStep libW { initialState with alarmActive := true } ⟨7, 0, 0⟩ 42
        false).1.tempo = libW.tempo3 ∧
      (loopStep libW { initialState with alarmActive := true } ⟨7, 0, 0⟩ 42
        false).1.wholenote = wholenoteOf libW.tempo3 ∧
      (loopStep libW { initialState with alarmActive := true } ⟨7, 0, 0⟩ 42
        false).1.currentNote = 0 ∧
      (loopStep libW { initialState with alarmActive := true } ⟨7, 0, 0⟩ 42
        false).1.noteDuration = 0 ∧
      (loopStep libW { initialState with alarmActive := true } ⟨7, 0, 0⟩ 42
        false).1.soundMillis = 42) ∧
    (¬(({ initialState with alarmActive := true } : ClockState).alarmActive ∧
       ((7 : Nat) : Int) = (7 : Int) ∧ ((0 : Nat) : Int) = (0 : Int) ∧
       (0 : Nat) = 0) →
      (loopStep libW { initialState with alarmActive := true } ⟨7, 0, 0⟩ 42
        false).1.currentDisplayStatus = .time ∧
      (loopStep libW { initialState with alarmActive := true } ⟨7, 0, 0⟩ 42
        false).1.melody =
        ({ initialState with alarmActive := true } : ClockState).melody) ∧
    ((loopStep libW { initialState with currentDisplayStatus := .menu }
        ⟨7, 0, 0⟩ 42 false).1.melody =
      ({ initialState with currentDisplayStatus := .menu } : ClockState).melody ∧
     ((loopStep libW { initialState with currentDisplayStatus := .menu }
         ⟨7, 0, 0⟩ 42 false).1.currentDisplayStatus = .playingMelody →
      ({ initialState with currentDisplayStatus := .menu } :
        ClockState).currentDisplayStatus = .playingMelody)) :=
  alarm_fires_iff libW { initialState with alarmActive := true }
    { initialState with currentDisplayStatus := .menu } ⟨7, 0, 0⟩ 42 rfl
    (by decide)

theorem loopStep_fst (lib : MelodyLib) (st : ClockState) (now : DateTime)
    (ms : Nat) (b : Bool) :
    (loopStep lib st now ms b).1 =
      (buttonHandler lib (caseResult lib st now ms) ms b).1 := by
  cases hs : st.currentDisplayStatus
  case time =>
    rcases hb : buttonHandler lib (timeCase lib st now ms) ms b with ⟨s2, n2⟩
    simp [loopStep, caseResult, hs, hb]
  case menu =>
    rcases hb : buttonHandler lib (menuCase st ms) ms b with ⟨s2, n2⟩
    simp [loopStep, caseResult, hs, hb]
  case setAlarm =>
    rcases hb : buttonHandler lib (setAlarmCase st ms) ms b with ⟨s2, n2⟩
    simp [loopStep, caseResult, hs, hb]
  case setTime =>
    rcases hp : setTimeCase st now ms with ⟨s, adj⟩
    rcases hb : buttonHandler lib s ms b with ⟨s2, n2⟩
    simp [loopStep, caseResult, hs, hp, hb]
  case playingMelody =>
    rcases hp : playingMelodyCase lib st now ms with ⟨s, tc, nt⟩
    rcases hb : buttonHandler lib s ms b with ⟨s2, n2⟩
    simp [loopStep, caseResult, hs, hp, hb]

theorem timeCase_sign (lib : MelodyLib) (s t : ClockState) (now : DateTime)
    (ms : Nat)
    (hagree : ({ s with encoderPos := 0 } : ClockState) =
              { t with encoderPos := 0 })
    (hsign : (0 < s.encoderPos ∧ 0 < t.encoderPos) ∨
             (s.encoderPos < 0 ∧ t.encoderPos < 0)) :
    timeCase lib s now ms = timeCase lib t now ms := by
  obtain ⟨i, co, l3, cds, amo, msm, bm, dv, ah, am, aa, eps, mel, tp, wn, cn,
    nd, nm, sm⟩ := s
  obtain ⟨i2, co2, l32, cds2, amo2, msm2, bm2, dv2, ah2, am2, aa2, ept, mel2,
    tp2, wn2, cn2, nd2, nm2, sm2⟩ := t
  simp only [ClockState.mk.injEq] at hagree
  obtain ⟨rfl, rfl, rfl, rfl, rfl, rfl, rfl, rfl, rfl, rfl, rfl, -, rfl, rfl,
    rfl, rfl, rfl, rfl, rfl⟩ := hagree
  rcases hsign with ⟨hk, hj⟩ | ⟨hk, hj⟩
  · replace hk : 0 < eps := hk
    replace hj : 0 < ept := hj
    simp [timeCase, hk, hj]
  · replace hk : eps < 0 := hk
    replace hj : ept < 0 := hj
    simp [timeCase, hk, hj, show ¬(0 < eps) by omega, show ¬(0 < ept) by omega]

theorem menuCase_sign (s t : ClockState) (ms : Nat)
    (hagree : ({ s with encoderPos := 0 } : ClockState) =
              { t with encoderPos := 0 })
    (hsign : (0 < s.encoderPos ∧ 0 < t.encoderPos) ∨
             (s.encoderPos < 0 ∧ t.encoderPos < 0)) :
    menuCase s ms = menuCase t ms := by
  obtain ⟨i, co, l3, cds, amo, msm, bm, dv, ah, am, aa, eps, mel, tp, wn, cn,
    nd, nm, sm⟩ := s
  obtain ⟨i2, co2, l32, cds2, amo2, msm2, bm2, dv2, ah2, am2, aa2, ept, mel2,
    tp2, wn2, cn2, nd2, nm2, sm2⟩ := t
  simp only [ClockState.mk.injEq] at hagree
  obtain ⟨rfl, rfl, rfl, rfl, rfl, rfl, rfl, rfl, rfl, rfl, rfl, -, rfl, rfl,
    rfl, rfl, rfl, rfl, rfl⟩ := hagree
  rcases hsign with ⟨hk, hj⟩ | ⟨hk, hj⟩
  · replace hk : 0 < eps := hk
    replace hj : 0 < ept := hj
    simp [menuCase, hk, hj]
  · replace hk : eps < 0 := hk
    replace hj : ept < 0 := hj
    simp [menuCase, hk, hj, show ¬(0 < eps) by omega, show ¬(0 < ept) by omega]

theorem setTimeCase_sign (s t : ClockState) (now : DateTime) (ms : Nat)
    (hagree : ({ s with encoderPos := 0 } : ClockState) =
              { t with encoderPos := 0 })
    (hsign : (0 < s.encoderPos ∧ 0 < t.encoderPos) ∨
             (s.encoderPos < 0 ∧ t.encoderPos < 0)) :
    setTimeCase s now ms = setTimeCase t now ms := by
  obtain ⟨i, co, l3, cds, amo, msm, bm, dv, ah, am, aa, eps, mel, tp, wn, cn,
    nd, nm, sm⟩ := s
  obtain ⟨i2, co2, l32, cds2, amo2, msm2, bm2, dv2, ah2, am2, aa2, ept, mel2,
    tp2, wn2, cn2, nd2, nm2, sm2⟩ := t
  simp only [ClockState.mk.injEq] at hagree
  obtain ⟨rfl, rfl, rfl, rfl, rfl, rfl, rfl, rfl, rfl, rfl, rfl, -, rfl, rfl,
    rfl, rfl, rfl, rfl, rfl⟩ := hagree
  rcases hsign with ⟨hk, hj⟩ | ⟨hk, hj⟩
  · replace hk : 0 < eps := hk
    replace hj : 0 < ept := hj
    simp [setTimeCase, hk, hj]
    try (split_ifs <;> simp)
  · replace hk : eps < 0 := hk
    replace hj : ept < 0 := hj
    simp [setTimeCase, hk, hj, show ¬(0 < eps) by omega,
      show ¬(0 < ept) by omega]
    try (split_ifs <;> simp)

theorem setAlarmCase_sign (s t : ClockState) (ms : Nat)
    (hagree : ({ s with encoderPos := 0 } : ClockState) =
              { t with encoderPos := 0 })
    (hsign : (0 < s.encoderPos ∧ 0 < t.encoderPos) ∨
             (s.encoderPos < 0 ∧ t.encoderPos < 0)) :
    setAlarmCase s ms = setAlarmCase t ms := by
  obtain ⟨i, co, l3, cds, amo, msm, bm, dv, ah, am, aa, eps, mel, tp, wn, cn,
    nd, nm, sm⟩ := s
  obtain ⟨i2, co2, l32, cds2, amo2, msm2, bm2, dv2, ah2, am2, aa2, ept, mel2,
    tp2, wn2, cn2, nd2, nm2, sm2⟩ := t
  simp only [ClockState.mk.injEq] at hagree
  obtain ⟨rfl, rfl, rfl, rfl, rfl, rfl, rfl, rfl, rfl, rfl, rfl, -, rfl, rfl,
    rfl, rfl, rfl, rfl, rfl⟩ := hagree
  rcases hsign with ⟨hk, hj⟩ | ⟨hk, hj⟩
  · replace hk : 0 < eps := hk
    replace hj : 0 < ept := hj
    simp [setAlarmCase, hk, hj]
    try (split_ifs <;> simp)
  · replace hk : eps < 0 := hk
    replace hj : ept < 0 := hj
    simp [setAlarmCase, hk, hj, show ¬(0 < eps) by omega,
      show ¬(0 < ept) by omega]
    try (split_ifs <;> simp)

theorem loopStep_sign (lib : MelodyLib) (s t : ClockState) (now : DateTime)
    (ms : Nat) (b : Bool)
    (hagree : ({ s with encoderPos := 0 } : ClockState) =
              { t with encoderPos := 0 })
    (hsign : (0 < s.encoderPos ∧ 0 < t.encoderPos) ∨
             (s.encoderPos < 0 ∧ t.encoderPos < 0))
    (hnp : s.currentDisplayStatus ≠ .playingMelody) :
    loopStep lib s now ms b = loopStep lib t now ms b := by
  have e1 := timeCase_sign lib s t now ms hagree hsign
  have e2 := menuCase_sign s t ms hagree hsign
  have e3 := setTimeCase_sign s t now ms hagree hsign
  have e4 := setAlarmCase_sign s t ms hagree hsign
  have hcds' := congrArg ClockState.currentDisplayStatus hagree
  have hcds : s.currentDisplayStatus = t.currentDisplayStatus := hcds'
  cases hs : s.currentDisplayStatus
  case playingMelody => exact absurd hs hnp
  case time =>
    simp only [loopStep, hs, hcds ▸ hs, e1]
  case menu =>
    simp only [loopStep, hs, hcds ▸ hs, e2]
  case setTime =>
    simp only [loopStep, hs, hcds ▸ hs, e3]
  case setAlarm =>
    simp only [loopStep, hs, hcds ▸ hs, e4]

/-- C6 (corrected): in the Time, Menu, SetTime and SetAlarm states, one
foreground iteration consumes the encoder accumulator: afterwards it is
zero, and only the sign of the accumulated value matters — an iteration
started with any positive value is identical (state and effects) to one
started with 1, and with any negative value to one started with -1.  In
the PlayingMelody state, however, the accumulator is not read at all and
is left unchanged by the iteration. -/
theorem encoder_consumed_per_iteration (lib : MelodyLib) (st : ClockState)
    (now : DateTime) (ms : Nat) (b : Bool) (k : Int)
    (hnp : st.currentDisplayStatus ≠ .playingMelody) :
    ((loopStep lib st now ms b).1.encoderPos = 0) ∧
    (0 < k → loopStep lib { st with encoderPos := k } now ms b =
             loopStep lib { st with encoderPos := 1 } now ms b) ∧
    (k < 0 → loopStep lib { st with encoderPos := k } now ms b =
             loopStep lib { st with encoderPos := -1 } now ms b) ∧
    (∀ st2 : ClockState, st2.currentDisplayStatus = .playingMelody →
      (loopStep lib st2 now ms b).1.encoderPos = st2.encoderPos) := by
  refine ⟨?_, ?_, ?_, ?_⟩
  · rw [loopStep_fst, (buttonHandler_frame lib _ ms b).2.2.2.2]
    cases hs : st.currentDisplayStatus
    case playingMelody => exact absurd hs hnp
    case time =>
      simp only [caseResult, hs, timeCase_encoderPos]
      split_ifs <;> omega
    case menu =>
      simp only [caseResult, hs, menuCase_encoderPos]
      split_ifs <;> omega
    case setTime =>
      simp only [caseResult, hs, setTimeCase_encoderPos]
      split_ifs <;> omega
    case setAlarm =>
      simp only [caseResult, hs, setAlarmCase_encoderPos]
      split_ifs <;> omega
  · intro hk
    exact loopStep_sign lib _ _ now ms b rfl
      (Or.inl ⟨hk, show (0 : Int) < 1 by norm_num⟩) hnp
  · intro hk
    exact loopStep_sign lib _ _ now ms b rfl
      (Or.inr ⟨hk, show (-1 : Int) < 0 by norm_num⟩) hnp
  · intro st2 h2
    rw [loopStep_fst, (buttonHandler_frame lib _ ms b).2.2.2.2]
    simp only [caseResult, h2]
    exact (playingMelodyCase_status lib st2 now ms).2.2.1

/-- C6 witness: in the Menu state with 3 accumulated steps, the iteration
leaves the accumulator at zero, behaves exactly like a single positive
step, and a PlayingMelody iteration leaves a nonzero accumulator alone. -/
theorem encoder_consumed_per_iteration_witness :
    ((loopStep libW
        { initialState with currentDisplayStatus := .menu, encoderPos := 3 }
        ⟨1, 2, 3⟩ 50 false).1.encoderPos = 0) ∧
    (0 < (3 : Int) →
      loopStep libW
        { { initialState with currentDisplayStatus := .menu, encoderPos := 3 } with encoderPos := 3 }
        ⟨1, 2, 3⟩ 50 false =
      loopStep libW
        { { initialState with currentDisplayStatus := .menu, encoderPos := 3 } with encoderPos := 1 }
        ⟨1, 2, 3⟩ 50 false) ∧
    ((3 : Int) < 0 →
      loopStep libW
        { { initialState with currentDisplayStatus := .menu, encoderPos := 3 } with encoderPos := 3 }
        ⟨1, 2, 3⟩ 50 false =
      loopStep libW
        { { initialState with currentDisplayStatus := .menu, encoderPos := 3 } with encoderPos := -1 }
        ⟨1, 2, 3⟩ 50 false) ∧
    (∀ st2 : ClockState, st2.currentDisplayStatus = .playingMelody →
      (loopStep libW st2 ⟨1, 2, 3⟩ 50 false).1.encoderPos = st2.encoderPos) :=
  encoder_consumed_per_iteration libW
    { initialState with currentDisplayStatus := .menu, encoderPos := 3 }
    ⟨1, 2, 3⟩ 50 false 3 (by decide)

/-- C6 counterexample: a full foreground iteration in PlayingMelody leaves
the encoder accumulator at 1 — it is neither read nor reset, refuting "the
accumulator is reset to zero ... in every UI state". -/
theorem encoder_unconsumed_playing_cex :
    (loopStep libW
      { initialState with currentDisplayStatus := .playingMelody,
                          melody := some .mel1, encoderPos := 1 }
      ⟨1, 2, 3⟩ 100 false).1.encoderPos = 1 ∧
    (loopStep libW
      { initialState with currentDisplayStatus := .playingMelody,
                          melody := some .mel1, encoderPos := 1 }
      ⟨1, 2, 3⟩ 100 false).1.currentDisplayStatus = .playingMelody :=
  ⟨rfl, rfl⟩


/-- C10: the selected menu option index is mutated only by encoder rotation
in the Menu state: any iteration outside Menu (button pressed or not)
leaves it unchanged, a Menu iteration with no encoder input leaves it
unchanged, and it starts at option 0. -/
theorem menu_option_only_encoder (lib : MelodyLib) (st : ClockState)
    (now : DateTime) (ms : Nat) (b : Bool) :
    (st.currentDisplayStatus ≠ .menu →
      (loopStep lib st now ms b).1.activeMenuOption = st.activeMenuOption) ∧
    (st.currentDisplayStatus = .menu → st.encoderPos = 0 →
      (loopStep lib st now ms b).1.activeMenuOption = st.activeMenuOption) ∧
    initialState.activeMenuOption = 0 := by
  refine ⟨?_, ?_, rfl⟩
  · intro h
    rw [loopStep_fst, (buttonHandler_frame lib _ ms b).2.1]
    cases hs : st.currentDisplayStatus
    case menu => exact absurd hs h
    case time =>
      simp only [caseResult, hs]
      exact (timeCase_frame lib st now ms).1
    case setTime =>
      simp only [caseResult, hs]
      exact (setTimeCase_frame st now ms).2.1
    case setAlarm =>
      simp only [caseResult, hs]
      exact (setAlarmCase_frame st ms).2.1
    case playingMelody =>
      simp only [caseResult, hs]
      exact (playingMelodyCase_status lib st now ms).2.2.2.2.2.1
  · intro h h0
    rw [loopStep_fst, (buttonHandler_frame lib _ ms b).2.1]
    simp only [caseResult, h, menuCase_activeMenuOption, h0]
    norm_num

/-- C10 witness: a button press in the Time state (opening the menu) keeps
the stored option index. -/
theorem menu_option_only_encoder_witness :
    (loopStep libW initialState ⟨1, 2, 3⟩ 1000 true).1.activeMenuOption =
      initialState.activeMenuOption :=
  (menu_option_only_encoder libW initialState ⟨1, 2, 3⟩ 1000 true).1
    (by decide)

/-- C8: one foreground iteration (any inputs) preserves the data
invariants: intensity stays in [0,10], the active menu option stays in
[0, menuItemCount-1], the alarm minute stays in [0,59] and the alarm hour
stays in [0,23]. -/
theorem invariants_preserved (lib : MelodyLib) (st : ClockState)
    (now : DateTime) (ms : Nat) (b : Bool)
    (h1 : 0 ≤ st.intensity ∧ st.intensity ≤ 10)
    (h2 : 0 ≤ st.activeMenuOption ∧ st.activeMenuOption ≤ menuItemCount - 1)
    (h3 : 0 ≤ st.alarmMinute ∧ st.alarmMinute ≤ 59)
    (h4 : 0 ≤ st.alarmHour ∧ st.alarmHour ≤ 23) :
    (0 ≤ (loopStep lib st now ms b).1.intensity ∧
      (loopStep lib st now ms b).1.intensity ≤ 10) ∧
    (0 ≤ (loopStep lib st now ms b).1.activeMenuOption ∧
      (loopStep lib st now ms b).1.activeMenuOption ≤ menuItemCount - 1) ∧
    (0 ≤ (loopStep lib st now ms b).1.alarmMinute ∧
      (loopStep lib st now ms b).1.alarmMinute ≤ 59) ∧
    (0 ≤ (loopStep lib st now ms b).1.alarmHour ∧
      (loopStep lib st now ms b).1.alarmHour ≤ 23) := by
  rw [loopStep_fst]
  obtain ⟨bf1, bf2, bf3, bf4, -⟩ := buttonHandler_frame lib
    (caseResult lib st now ms) ms b
  rw [bf1, bf2, bf3, bf4]
  cases hs : st.currentDisplayStatus
  case time =>
    simp only [caseResult, hs]
    obtain ⟨f1, f2, f3, -, -⟩ := timeCase_frame lib st now ms
    rw [f1, f2, f3, timeCase_intensity]
    refine ⟨?_, h2, h3, h4⟩
    split_ifs <;> omega
  case menu =>
    simp only [caseResult, hs]
    obtain ⟨f1, f2, f3, -, -⟩ := menuCase_frame st ms
    rw [f1, f2, f3, menuCase_activeMenuOption]
    refine ⟨h1, ?_, h3, h4⟩
    simp only [menuItemCount] at h2 ⊢
    split_ifs <;> omega
  case setTime =>
    simp only [caseResult, hs]
    obtain ⟨f1, f2, f3, f4, -⟩ := setTimeCase_frame st now ms
    rw [f1, f2, f3, f4]
    exact ⟨h1, h2, h3, h4⟩
  case setAlarm =>
    simp only [caseResult, hs]
    obtain ⟨f1, f2, -⟩ := setAlarmCase_frame st ms
    rw [f1, f2]
    refine ⟨h1, h2, ?_⟩
    rcases lt_trichotomy st.encoderPos 0 with hneg | hzero | hpos
    · obtain ⟨e1, e2⟩ := setAlarmCase_alarm_neg st ms hneg
      rw [e1, e2]
      constructor <;> constructor <;> (split_ifs <;> omega)
    · obtain ⟨e1, e2⟩ := setAlarmCase_alarm_zero st ms hzero
      rw [e1, e2]
      exact ⟨h3, h4⟩
    · obtain ⟨e1, e2⟩ := setAlarmCase_alarm_pos st ms hpos
      rw [e1, e2]
      constructor <;> constructor <;> (split_ifs <;> omega)
  case playingMelody =>
    simp only [caseResult, hs]
    obtain ⟨-, -, -, -, p1, p2, p3, p4⟩ := playingMelodyCase_status lib st now ms
    rw [p1, p2, p3, p4]
    exact ⟨h1, h2, h3, h4⟩

/-- C8 witness: the invariants hold after an iteration from the initial
state with one positive encoder step pending. -/
theorem invariants_preserved_witness :
    (0 ≤ (loopStep libW { initialState with encoderPos := 1 } ⟨1, 2, 3⟩ 5
        false).1.intensity ∧
      (loopStep libW { initialState with encoderPos := 1 } ⟨1, 2, 3⟩ 5
        false).1.intensity ≤ 10) ∧
    (0 ≤ (loopStep libW { initialState with encoderPos := 1 } ⟨1, 2, 3⟩ 5
        false).1.activeMenuOption ∧
      (loopStep libW { initialState with encoderPos := 1 } ⟨1, 2, 3⟩ 5
        false).1.activeMenuOption ≤ menuItemCount - 1) ∧
    (0 ≤ (loopStep libW { initialState with encoderPos := 1 } ⟨1, 2, 3⟩ 5
        false).1.alarmMinute ∧
      (loopStep libW { initialState with encoderPos := 1 } ⟨1, 2, 3⟩ 5
        false).1.alarmMinute ≤ 59) ∧
    (0 ≤ (loopStep libW { initialState with encoderPos := 1 } ⟨1, 2, 3⟩ 5
        false).1.alarmHour ∧
      (loopStep libW { initialState with encoderPos := 1 } ⟨1, 2, 3⟩ 5
        false).1.alarmHour ≤ 23) :=
  invariants_preserved libW { initialState with encoderPos := 1 } ⟨1, 2, 3⟩ 5
    false (by decide) (by decide) (by decide) (by decide)


theorem renderDigits_closed (n : Nat) :
    renderDigits (n : Int) =
      [if 0 < n / 1000 then symbol.getD (n / 1000 % 10) 0 else 0,
       if 0 < n / 100 then symbol.getD (n / 100 % 10) 0 else 0,
       if 0 < n / 10 then symbol.getD (n / 10 % 10) 0 else 0,
       if 0 < n then symbol.getD (n % 10) 0 else symbol.getD 0 0] := by
  have step : ∀ a : Nat,
      (if (a : Int) > 0 then (a : Int).tdiv 10 else (a : Int)) =
        ((a / 10 : Nat) : Int) := by
    intro a
    split_ifs with h
    · rfl
    · have ha : a = 0 := by omega
      subst ha; rfl
  have dp : ∀ a digit : Nat,
      digitPattern (a : Int) digit =
        (if 0 < a then symbol.getD (a % 10) 0
         else if digit = 3 then symbol.getD 0 0 else 0) := by
    intro a digit
    by_cases h : 0 < a
    · simp only [digitPattern]
      rw [if_pos (by exact_mod_cast h), if_pos h]
      rfl
    · simp only [digitPattern]
      rw [if_neg (by exact_mod_cast h), if_neg h]
  simp only [renderDigits, step, dp]
  norm_num [Nat.div_div_eq_div_mul]

theorem timeCase_digitValue (lib : MelodyLib) (st : ClockState)
    (now : DateTime) (ms : Nat) :
    (timeCase lib st now ms).digitValue =
      renderDigits ((now.hour : Int) * 100 + now.minute) := by
  simp only [timeCase]
  split_ifs <;> rfl

/-- C9: in the Time state the four digit slots are the rendering of
hour*100+minute; in that rendering every leading zero digit is blank (0x0,
which is not the '0' glyph), while the rightmost digit falls back to the
'0' glyph when the remaining value is zero: 00:05 renders as three blanks
and '5', and 00:00 as three blanks and '0'. -/
theorem leading_zero_blanking (lib : MelodyLib) (st : ClockState)
    (now : DateTime) (ms : Nat)
    (hst : st.currentDisplayStatus = .time) (n : Nat) :
    (loopStep lib st now ms false).1.digitValue =
      renderDigits ((now.hour : Int) * 100 + now.minute) ∧
    ((now.hour : Int) * 100 + now.minute) =
      ((now.hour * 100 + now.minute : Nat) : Int) ∧
    (n < 1000 → (renderDigits (n : Int)).getD 0 99 = 0x0) ∧
    (n < 100 → (renderDigits (n : Int)).getD 1 99 = 0x0) ∧
    (n < 10 → (renderDigits (n : Int)).getD 2 99 = 0x0) ∧
    (n = 0 → (renderDigits (n : Int)).getD 3 99 = symbol.getD 0 0) ∧
    symbol.getD 0 0 ≠ 0x0 ∧
    renderDigits 5 = [0x0, 0x0, 0x0, symbol.getD 5 0] ∧
    renderDigits 0 = [0x0, 0x0, 0x0, symbol.getD 0 0] := by
  refine ⟨?_, by push_cast; ring, ?_, ?_, ?_, ?_, by decide, by decide,
    by decide⟩
  · rw [loopStep_time lib st now ms hst]
    exact timeCase_digitValue lib st now ms
  · intro h
    rw [renderDigits_closed]
    have hz : n / 1000 = 0 := by omega
    simp [hz]
  · intro h
    rw [renderDigits_closed]
    have hz : n / 100 = 0 := by omega
    simp [hz]
  · intro h
    rw [renderDigits_closed]
    have hz : n / 10 = 0 := by omega
    simp [hz]
  · intro h
    subst h
    decide

/-- C9 witness: at 00:05 the Time state renders [blank, blank, blank, '5']. -/
theorem leading_zero_blanking_witness :
    (loopStep libW initialState ⟨0, 5, 0⟩ 7 false).1.digitValue =
      renderDigits (((0 : Nat) : Int) * 100 + ((5 : Nat) : Int)) ∧
    ((5 : Nat) < 1000 → (renderDigits ((5 : Nat) : Int)).getD 0 99 = 0x0) :=
  ⟨(leading_zero_blanking libW initialState ⟨0, 5, 0⟩ 7 rfl 5).1,
   (leading_zero_blanking libW initialState ⟨0, 5, 0⟩ 7 rfl 5).2.2.1⟩


theorem dutyFilterLen (i : Int) (h0 : 0 ≤ i) (h1 : i ≤ 10) :
    ((List.range 11).filter (fun k => decide ((k : Int) ≤ i))).length =
      i.toNat + 1 := by
  interval_cases i <;> decide

set_option maxHeartbeats 1600000 in
/-- C3: over the 11 interrupt sub-ticks of one digit dwell (counter 0..10),
the active digit's pattern (with colon/LED bits) is emitted exactly on the
sub-ticks whose counter is at most `intensity` — `intensity + 1` of them —
and the blank pattern with the same digit selected on the remaining ones;
after the 11 sub-ticks the digit index advances cyclically through 0..3 and
the counter resets to 0. -/
theorem dimming_duty_cycle (ds : IDisplay) (d : Nat)
    (hi0 : 0 ≤ ds.intensity) (hi1 : ds.intensity ≤ 10) (hd : d < 4) :
    (runTicks ds 11 ⟨d, 0⟩).1 =
      (List.range 11).map (fun k =>
        if (k : Int) ≤ ds.intensity then activeOut ds d else blankOut d) ∧
    ((List.range 11).filter
        (fun k => decide ((k : Int) ≤ ds.intensity))).length =
      ds.intensity.toNat + 1 ∧
    (runTicks ds 11 ⟨d, 0⟩).2 = ⟨(d + 1) % 4, 0⟩ := by
  refine ⟨?_, dutyFilterLen ds.intensity hi0 hi1, ?_⟩ <;>
    (obtain ⟨dv, c, l, i⟩ := ds
     replace hi0 : 0 ≤ i := hi0
     replace hi1 : i ≤ 10 := hi1
     interval_cases i <;> interval_cases d <;> rfl)

/-- C3 witness: at intensity 4 on digit 2, a dwell of 11 sub-ticks ends on
digit 3 with counter 0 and drives the digit on exactly 5 sub-ticks. -/
theorem dimming_duty_cycle_witness :
    (runTicks ⟨[1, 2, 3, 4], false, false, 4⟩ 11 ⟨2, 0⟩).2 =
      (⟨3, 0⟩ : IState) ∧
    ((List.range 11).filter
        (fun k => decide ((k : Int) ≤ (4 : Int)))).length = 5 :=
  ⟨((dimming_duty_cycle ⟨[1, 2, 3, 4], false, false, 4⟩ 2 (by decide)
      (by decide) (by decide)).2.2).trans (by decide),
   ((dimming_duty_cycle ⟨[1, 2, 3, 4], false, false, 4⟩ 2 (by decide)
      (by decide) (by decide)).2.1).trans (by decide)⟩

end Alarmclock
